import Mathlib

/-!
Verification of the Vaidya frontend against its specification.

The development shallowly embeds the client-side code of the repository:

* `src/frontend/src/config/api.ts` — the configuration constants
  (`API_CONFIG`, `API_TIMEOUT`, `APP_CONFIG.STORAGE_KEYS`);
* the fetch-based `ApiService` (`src/unnamed/part_000`) — namespace
  `ApiService`: `getAuthHeaders`, `request` (with its 401
  refresh-and-retry), `refreshToken`, `logout`;
* the axios-based `ApiService` variant (`src/unnamed/part_001`) —
  namespace `ApiServiceAxios`;
* the chat component (`src/unnamed/part_003`, the working variant of
  `src/frontend/src/components/Chat.tsx`) — namespace `Chat`:
  `handleFileChange`, `uploadFile`, `sendMessage`;
* the symptom checker (`src/frontend/src/components/SymptomChecker.tsx`) —
  namespace `SymptomChecker`.

Browser local storage is an association list of string keys and values.
The network is an oracle: a list of pending `FetchResult`s consumed in
order by each `fetch`/axios call, so a run of the client is a pure
function of the initial storage and that list.  Each response carries
`dur`, the time in milliseconds at which it would arrive; a response
arriving at or after the client timeout models the `AbortController`
(resp. axios `timeout`) firing first, which rejects the request promise.
Real-time fields of the source with no logical content (`Date.now()`
message ids, timestamps) are omitted from the embedding.
-/

/-! ## Browser local storage -/

/-- Browser `localStorage`, modelled as an association list of key/value
pairs.  Only `getItem`, `setItem` and `removeItem` are used by the code. -/
abbrev Store : Type := List (String × String)

/-- Model of `localStorage.getItem`. -/
def Store.get : Store → String → Option String
  | [], _ => none
  | (k, v) :: rest, key => if k = key then some v else Store.get rest key

/-- Model of `localStorage.removeItem`. -/
def Store.remove : Store → String → Store
  | [], _ => []
  | (k, v) :: rest, key =>
    if k = key then Store.remove rest key else (k, v) :: Store.remove rest key

/-- Model of `localStorage.setItem`: the key now maps to exactly `v`. -/
def Store.set (s : Store) (key v : String) : Store :=
  Store.remove s key ++ [(key, v)]

/-- Model of the JavaScript string method `trim()`: the string with the
whitespace dropped from both ends (written over the character list so
that it evaluates by kernel reduction). -/
def jsTrim (s : String) : String :=
  ⟨((s.data.dropWhile Char.isWhitespace).reverse.dropWhile Char.isWhitespace).reverse⟩

/-! ## Configuration (`src/frontend/src/config/api.ts`) -/

/-- Configuration entry of `API_CONFIG` for one environment. -/
structure EnvConfig where
  baseUrl : String
  timeout : Nat

/-- Shape of the `API_CONFIG` object. -/
structure ApiConfig where
  development : EnvConfig
  production : EnvConfig

/-- Embedding of `API_CONFIG` from `api.ts` (the `REACT_APP_API_URL`
override of `baseUrl` is irrelevant to the claims and omitted). -/
def API_CONFIG : ApiConfig :=
  ⟨⟨"http://localhost:8000/api/v1", 30000⟩, ⟨"https://api.vaidya.com/api/v1", 60000⟩⟩

/-- Embedding of `const ENV = process.env.NODE_ENV === 'production' ?
'production' : 'development'`, as a function of `NODE_ENV`. -/
def ENV (node_env : String) : String :=
  if node_env = "production" then "production" else "development"

/-- Embedding of `export const API_TIMEOUT = API_CONFIG[ENV].timeout`. -/
def API_TIMEOUT (node_env : String) : Nat :=
  if ENV node_env = "production" then API_CONFIG.production.timeout
  else API_CONFIG.development.timeout

/-- Field names of `APP_CONFIG.STORAGE_KEYS`. -/
structure StorageKeysT where
  ACCESS_TOKEN : String
  REFRESH_TOKEN : String
  USER_DATA : String
  CHAT_HISTORY : String

/-- Embedding of `APP_CONFIG.STORAGE_KEYS` from `api.ts`. -/
def STORAGE_KEYS : StorageKeysT :=
  ⟨"vaidya_access_token", "vaidya_refresh_token", "vaidya_user_data", "vaidya_chat_history"⟩

/-- Embedding of `APP_CONFIG.REQUEST_TIMEOUT` (30 seconds). -/
def REQUEST_TIMEOUT : Nat := 30000

/-! ## Network model -/

/-- JSON body of a backend response, restricted to the fields the client
reads (`data.access_token` / `data.refresh_token` on the auth endpoints;
on other endpoints the structure stands for the opaque parsed payload). -/
structure JsonBody where
  access_token : String
  refresh_token : String
  deriving DecidableEq

/-- One pending network outcome: a response with arrival time `dur` (ms)
and HTTP status, or a network-level rejection of the fetch promise. -/
inductive FetchResult where
  | resp (dur status : Nat) (body : JsonBody)
  | netError
  deriving DecidableEq

/-- Errors a client call can surface (promise rejections): an abort by
the request timeout, a network failure, `throw new Error('HTTP error!
status: ...')`, `throw new Error('No refresh token available')`, and
`throw new Error('Token refresh failed')`. -/
inductive ApiErr where
  | aborted
  | netError
  | httpError (status : Nat)
  | noRefreshToken
  | refreshFailed
  deriving DecidableEq

/-- Meaning of `response.ok`: the status is in the 2xx range (axios's
default `validateStatus` draws the same line). -/
def respOk (status : Nat) : Bool := 200 ≤ status && status < 300

/-- State threaded through a client run: the local storage, the pending
network outcomes, and the configured request timeout in milliseconds. -/
structure St where
  store : Store
  trace : List FetchResult
  timeoutMs : Nat
  deriving DecidableEq

namespace ApiService

/-! Embedding of the fetch-based `ApiService` (`src/unnamed/part_000`). -/

/-- Embedding of `ApiService.getAuthHeaders`: a Bearer header when
`STORAGE_KEYS.ACCESS_TOKEN` is present in local storage, else nothing. -/
def getAuthHeaders (store : Store) : List (String × String) :=
  match store.get STORAGE_KEYS.ACCESS_TOKEN with
  | some token => [("Authorization", "Bearer " ++ token)]
  | none => []

/-- Embedding of `ApiService.refreshToken`: without a stored refresh
token it throws before any network call; its `fetch` has no abort
controller, so the arrival time of the response is not checked; a
non-2xx response removes both token keys and throws; a 2xx response
overwrites both token keys with the response body's tokens. -/
def refreshToken (s : St) : Except ApiErr JsonBody × St :=
  match s.store.get STORAGE_KEYS.REFRESH_TOKEN with
  | none => (.error .noRefreshToken, s)
  | some _ =>
    match s.trace with
    | [] => (.error .netError, s)
    | .netError :: rs => (.error .netError, ⟨s.store, rs, s.timeoutMs⟩)
    | .resp _ status body :: rs =>
      if respOk status then
        (.ok body,
          ⟨(s.store.set STORAGE_KEYS.ACCESS_TOKEN body.access_token).set
              STORAGE_KEYS.REFRESH_TOKEN body.refresh_token, rs, s.timeoutMs⟩)
      else
        (.error .refreshFailed,
          ⟨(s.store.remove STORAGE_KEYS.ACCESS_TOKEN).remove
              STORAGE_KEYS.REFRESH_TOKEN, rs, s.timeoutMs⟩)

/-- Embedding of `ApiService.request`: a response arriving at or after
the timeout is aborted and the promise rejects; a 2xx response resolves
with the parsed body; a 401 response triggers `refreshToken` and, when
the refresh succeeds, a recursive retry of the same request (the source
has no retry counter); any other status throws an HTTP error.  An error
thrown by `refreshToken` propagates through the surrounding catch. -/
def request : St → Except ApiErr JsonBody × St
  | ⟨store, [], t⟩ => (.error .netError, ⟨store, [], t⟩)
  | ⟨store, .netError :: rs, t⟩ => (.error .netError, ⟨store, rs, t⟩)
  | ⟨store, .resp dur status body :: rs, t⟩ =>
    if t ≤ dur then (.error .aborted, ⟨store, rs, t⟩)
    else if respOk status then (.ok body, ⟨store, rs, t⟩)
    else if status = 401 then
      match hr : refreshToken ⟨store, rs, t⟩ with
      | (.ok _, s2) => request s2
      | (.error e, s2) => (.error e, s2)
    else (.error (.httpError status), ⟨store, rs, t⟩)
termination_by s => s.trace.length
decreasing_by
  have h : (refreshToken ⟨store, rs, t⟩).2.trace.length ≤ rs.length := by
    unfold refreshToken
    rcases hg : Store.get store STORAGE_KEYS.REFRESH_TOKEN with _ | tk
    · simp [hg]
    · rcases rs with _ | ⟨r, rs'⟩
      · simp [hg]
      · rcases r with ⟨d, status, body⟩ | _
        · by_cases hok : respOk status <;> simp [hg, hok]
        · simp [hg]
  rw [hr] at h
  simpa using Nat.lt_succ_of_le h

/-- Embedding of `ApiService.logout`: a POST through `request`, and a
`finally` block that removes the access-token, refresh-token and
user-data keys whatever the request's outcome was. -/
def logout (s : St) : Except ApiErr Unit × St :=
  let r := request s
  (r.1.map fun _ => (),
    ⟨((r.2.store.remove STORAGE_KEYS.ACCESS_TOKEN).remove
        STORAGE_KEYS.REFRESH_TOKEN).remove STORAGE_KEYS.USER_DATA,
      r.2.trace, r.2.timeoutMs⟩)

end ApiService

namespace ApiServiceAxios

/-! Embedding of the axios-based `ApiService` variant
(`src/unnamed/part_001`).  Its `getAuthHeaders` and `logout` use the
bare string keys of that source file, while its `refreshToken` uses
`APP_CONFIG.STORAGE_KEYS`, exactly as written there. -/

/-- Embedding of the axios variant's `getAuthHeaders`: it reads the
literal key `'access_token'` (the axios request interceptor reads the
same literal key). -/
def getAuthHeaders (store : Store) : List (String × String) :=
  match store.get "access_token" with
  | some token => [("Authorization", "Bearer " ++ token)]
  | none => []

/-- Embedding of the axios variant's `request`: one axios call with the
configured timeout; no 401 handling — the response interceptor maps any
non-2xx answer to a rejected promise carrying its status. -/
def request (s : St) : Except ApiErr JsonBody × St :=
  match s.trace with
  | [] => (.error .netError, s)
  | .netError :: rs => (.error .netError, ⟨s.store, rs, s.timeoutMs⟩)
  | .resp dur status body :: rs =>
    if s.timeoutMs ≤ dur then (.error .aborted, ⟨s.store, rs, s.timeoutMs⟩)
    else if respOk status then (.ok body, ⟨s.store, rs, s.timeoutMs⟩)
    else (.error (.httpError status), ⟨s.store, rs, s.timeoutMs⟩)

/-- Embedding of the axios variant's `logout`: a POST through `request`
and a `finally` block removing the literal keys `'access_token'`,
`'refresh_token'` and `'user_data'`. -/
def logout (s : St) : Except ApiErr Unit × St :=
  let r := request s
  (r.1.map fun _ => (),
    ⟨((r.2.store.remove "access_token").remove "refresh_token").remove "user_data",
      r.2.trace, r.2.timeoutMs⟩)

/-- Embedding of the axios variant's `refreshToken`, which is written
against `APP_CONFIG.STORAGE_KEYS` (the `vaidya_`-prefixed keys): same
logic as the fetch variant's `refreshToken`. -/
def refreshToken (s : St) : Except ApiErr JsonBody × St :=
  match s.store.get STORAGE_KEYS.REFRESH_TOKEN with
  | none => (.error .noRefreshToken, s)
  | some _ =>
    match s.trace with
    | [] => (.error .netError, s)
    | .netError :: rs => (.error .netError, ⟨s.store, rs, s.timeoutMs⟩)
    | .resp _ status body :: rs =>
      if respOk status then
        (.ok body,
          ⟨(s.store.set STORAGE_KEYS.ACCESS_TOKEN body.access_token).set
              STORAGE_KEYS.REFRESH_TOKEN body.refresh_token, rs, s.timeoutMs⟩)
      else
        (.error .refreshFailed,
          ⟨(s.store.remove STORAGE_KEYS.ACCESS_TOKEN).remove
              STORAGE_KEYS.REFRESH_TOKEN, rs, s.timeoutMs⟩)

end ApiServiceAxios

namespace Chat

/-! Embedding of the chat component (`src/unnamed/part_003`; the
`Chat.tsx` copy differs only in message `type` tags, an answer-text
fallback and toast wording, none of which the claims depend on). -/

/-- Chat message, with the fields of the component's `Message` interface
that carry logical content (the `Date.now()`-derived `id` and the
`timestamp` are real-time values and omitted). -/
structure Message where
  content : String
  isFromUser : Bool
  confidence : Option Nat
  sources : List String
  type : Option String
  deriving DecidableEq

/-- Selected file: the fields the component reads. -/
structure File where
  name : String
  size : Nat
  deriving DecidableEq

/-- Component state of `Chat`: the `useState` hooks. -/
structure ChatState where
  messages : List Message
  inputMessage : String
  isLoading : Bool
  isUploading : Bool
  selectedFile : Option File
  uploadProgress : Nat
  deriving DecidableEq

/-- Outcome of the `uploadDocument` network call. -/
inductive UploadOutcome where
  | ok
  | err
  deriving DecidableEq

/-- Payload of a successful `/chat/query` response: the fields the
component reads from `data`. -/
structure QueryData where
  answer : String
  confidence : Option Nat
  sources : List String
  deriving DecidableEq

/-- Outcome of the `/chat/query` fetch: a 2xx response with its parsed
body, or a failure (a non-OK status or a rejected fetch — the component
treats both through the same catch). -/
inductive QueryOutcome where
  | ok (data : QueryData)
  | err
  deriving DecidableEq

/-- Network calls the component can issue. -/
inductive Call where
  | upload
  | query
  deriving DecidableEq

/-- Toast notifications the component can raise. -/
inductive Toast where
  | success (msg : String)
  | error (msg : String)
  deriving DecidableEq

/-- Embedding of `handleFileChange`: a file above the 10 MB limit
raises an error toast and is not selected; otherwise it becomes the
selected file.  No network call is involved. -/
def handleFileChange (st : ChatState) (file : Option File) : ChatState × List Toast :=
  match file with
  | none => (st, [])
  | some f =>
    if f.size > 10 * 1024 * 1024 then
      (st, [.error "File size should be less than 10MB"])
    else
      ({st with selectedFile := some f}, [])

/-- System message appended after a successful upload. -/
def uploadedMessage (f : File) : Message :=
  ⟨"Document \"" ++ f.name ++ "\" has been uploaded and processed.",
    false, none, [], some "system"⟩

/-- Embedding of `uploadFile`.  The result's last component records
whether the call threw (the catch block toasts and rethrows); the
`finally` block resets `isUploading` and `uploadProgress` either way. -/
def uploadFile (st : ChatState) (u : UploadOutcome) : ChatState × List Call × Bool :=
  match st.selectedFile with
  | none => (st, [], false)
  | some f =>
    match u with
    | .ok =>
      ({st with selectedFile := none,
                messages := st.messages ++ [uploadedMessage f],
                isUploading := false, uploadProgress := 0}, [.upload], false)
    | .err =>
      ({st with isUploading := false, uploadProgress := 0}, [.upload], true)

/-- User message built from the input field (content is the untrimmed
input, as in the source). -/
def userMessage (text : String) : Message := ⟨text, true, none, [], none⟩

/-- Assistant message built from a query response. -/
def assistantMessage (d : QueryData) : Message :=
  ⟨d.answer, false, d.confidence, d.sources, none⟩

/-- Fallback message appended when the query call fails. -/
def apologyMessage : Message :=
  ⟨"I apologize, but I'm having trouble processing your request right now. Please try again later or consult with a healthcare professional.",
    false, none, [], none⟩

/-- Embedding of `sendMessage`.  The parameters `u` and `q` are the
outcomes the network would hand the two awaited calls; the second
result component lists the calls actually issued.  The query-phase
catch converts a failure into `apologyMessage`, so the function always
returns normally. -/
def sendMessage (st : ChatState) (u : UploadOutcome) (q : QueryOutcome) :
    ChatState × List Call :=
  if jsTrim st.inputMessage = "" ∧ st.selectedFile = none then (st, [])
  else
    let up := match st.selectedFile with
      | some _ => uploadFile st u
      | none => (st, [], false)
    if up.2.2 then (up.1, up.2.1)
    else
      let st1 := up.1
      if jsTrim st1.inputMessage = "" then (st1, up.2.1)
      else
        let st2 := {st1 with
          messages := st1.messages ++ [userMessage st1.inputMessage],
          inputMessage := "", isLoading := true}
        match q with
        | .ok d =>
          ({st2 with messages := st2.messages ++ [assistantMessage d],
                     isLoading := false}, up.2.1 ++ [.query])
        | .err =>
          ({st2 with messages := st2.messages ++ [apologyMessage],
                     isLoading := false}, up.2.1 ++ [.query])

end Chat

namespace SymptomChecker

/-! Embedding of `src/frontend/src/components/SymptomChecker.tsx`. -/

/-- Initial value of the `symptoms` state: one empty field. -/
def initialSymptoms : List String := [""]

/-- Embedding of `addSymptom`: appends an empty field. -/
def addSymptom (symptoms : List String) : List String := symptoms ++ [""]

/-- Embedding of `removeSymptom`: drops the field at `index` (a filter
on positions, as in the source) but only when more than one field
exists. -/
def removeSymptom (symptoms : List String) (index : Nat) : List String :=
  if symptoms.length > 1 then
    (symptoms.enum.filter fun p => p.1 ≠ index).map Prod.snd
  else symptoms

/-- Embedding of `updateSymptom`: writes `value` at `index` (the
component only invokes it with indices of rendered fields, i.e. in
range, where the copy-and-assign of the source is `List.set`). -/
def updateSymptom (symptoms : List String) (index : Nat) (value : String) : List String :=
  symptoms.set index value

/-- Embedding of `handleAnalyze`: filters out whitespace-only entries;
with nothing left it sets the error text and skips `onAnalyze`,
otherwise it calls `onAnalyze` with the filtered list (`analyzeOk`
tells whether that promise resolved; its rejection is caught and turned
into the failure error text).  The first result component is the new
`error` state, the second the argument passed to `onAnalyze`, if any. -/
def handleAnalyze (symptoms : List String) (analyzeOk : Bool) :
    String × Option (List String) :=
  let validSymptoms := symptoms.filter fun s => jsTrim s ≠ ""
  if validSymptoms.length = 0 then
    ("Please enter at least one symptom", none)
  else
    (if analyzeOk then "" else "Failed to analyze symptoms. Please try again.",
      some validSymptoms)

/-- States of the `symptoms` list reachable from the initial render by
the component's three updaters. -/
inductive Reachable : List String → Prop
  | init : Reachable initialSymptoms
  | add {l} : Reachable l → Reachable (addSymptom l)
  | update {l} (i : Nat) (v : String) : Reachable l → Reachable (updateSymptom l i v)
  | remove {l} (i : Nat) : Reachable l → Reachable (removeSymptom l i)

end SymptomChecker

/-! ## Lemmas about the storage model -/

theorem Store.get_remove_self (s : Store) (k : String) :
    (s.remove k).get k = none := by
  induction s with
  | nil => rfl
  | cons p rest ih =>
    obtain ⟨pk, pv⟩ := p
    by_cases h : pk = k <;> simp [Store.remove, Store.get, h, ih]

theorem Store.get_remove_ne (s : Store) (k k' : String) (h : k' ≠ k) :
    (s.remove k').get k = s.get k := by
  induction s with
  | nil => rfl
  | cons p rest ih =>
    obtain ⟨pk, pv⟩ := p
    by_cases hpk : pk = k'
    · subst hpk
      have hk : pk ≠ k := fun hh => h (hh ▸ rfl)
      simp [Store.remove, Store.get, hk, ih]
    · by_cases hk : pk = k <;>
        simp [Store.remove, Store.get, hpk, hk, ih, Ne.symm h]

theorem Store.get_remove_of_get_none (s : Store) (k k' : String) (h : s.get k = none) :
    (s.remove k').get k = none := by
  by_cases hk : k' = k
  · subst hk; exact Store.get_remove_self s k'
  · rw [Store.get_remove_ne s k k' hk]; exact h

theorem Store.get_append (s₁ s₂ : Store) (k : String) :
    (s₁ ++ s₂).get k = ((s₁.get k).or (s₂.get k)) := by
  induction s₁ with
  | nil => simp [Store.get]
  | cons p rest ih =>
    obtain ⟨pk, pv⟩ := p
    by_cases h : pk = k <;> simp [Store.get, h, ih]

theorem Store.get_set_self (s : Store) (k v : String) :
    (s.set k v).get k = some v := by
  simp [Store.set, Store.get_append, Store.get_remove_self, Store.get]

theorem Store.get_set_ne (s : Store) (k k' v : String) (h : k' ≠ k) :
    (s.set k' v).get k = s.get k := by
  simp [Store.set, Store.get_append, Store.get_remove_ne s k k' h, Store.get, h]

/-! ## Helper lemmas -/

theorem Chat.upload_not_called (st : Chat.ChatState) (u : Chat.UploadOutcome)
    (q : Chat.QueryOutcome) (h : st.selectedFile = none) :
    Chat.Call.upload ∉ (Chat.sendMessage st u q).2 := by
  by_cases h1 : jsTrim st.inputMessage = "" <;> cases q <;>
    simp [Chat.sendMessage, h, h1]

theorem SymptomChecker.enumFrom_filter_ne_length_eq {α : Type} (l : List α)
    (n i : Nat) (h : i < n) :
    ((List.enumFrom n l).filter fun p => !decide (p.1 = i)).length = l.length := by
  induction l generalizing n with
  | nil => rfl
  | cons x xs ih =>
    have hne : n ≠ i := by omega
    simp [List.enumFrom, List.filter_cons, hne, ih (n + 1) (by omega)]

theorem SymptomChecker.enumFrom_filter_ne_length_ge {α : Type} (l : List α)
    (n i : Nat) :
    l.length - 1 ≤ ((List.enumFrom n l).filter fun p => !decide (p.1 = i)).length := by
  induction l generalizing n with
  | nil => simp
  | cons x xs ih =>
    by_cases hn : n = i
    · subst hn
      have he := SymptomChecker.enumFrom_filter_ne_length_eq xs (n + 1) n (by omega)
      simp [List.enumFrom, List.filter_cons, he]
    · have hge := ih (n + 1)
      simp [List.enumFrom, List.filter_cons, hn]
      omega

theorem SymptomChecker.removeSymptom_length_pos (l : List String) (i : Nat)
    (h : 1 ≤ l.length) : 1 ≤ (SymptomChecker.removeSymptom l i).length := by
  unfold SymptomChecker.removeSymptom
  by_cases hl : l.length > 1
  · rw [if_pos hl, List.length_map]
    have hge := SymptomChecker.enumFrom_filter_ne_length_ge l 0 i
    have he : l.enum = l.enumFrom 0 := rfl
    simp only [ne_eq, decide_not, he]
    omega
  · rw [if_neg hl]; exact h

/-! ## Claim theorems -/

/-- C2: whatever the outcome of the POST to the logout endpoint
(success, HTTP failure, network failure or abort), after `logout`
finishes the access-token, refresh-token and user-data keys are all
absent from local storage — in the fetch-based service (which uses the
`vaidya_`-prefixed `STORAGE_KEYS`) and in the axios-based variant
(which uses its bare literal keys). -/
theorem C2_logout_clears_storage (s : St) :
    ((ApiService.logout s).2.store.get STORAGE_KEYS.ACCESS_TOKEN = none ∧
     (ApiService.logout s).2.store.get STORAGE_KEYS.REFRESH_TOKEN = none ∧
     (ApiService.logout s).2.store.get STORAGE_KEYS.USER_DATA = none) ∧
    ((ApiServiceAxios.logout s).2.store.get "access_token" = none ∧
     (ApiServiceAxios.logout s).2.store.get "refresh_token" = none ∧
     (ApiServiceAxios.logout s).2.store.get "user_data" = none) := by
  refine ⟨⟨?_, ?_, ?_⟩, ?_, ?_, ?_⟩ <;>
    simp only [ApiService.logout, ApiServiceAxios.logout] <;>
    first
      | exact Store.get_remove_self _ _
      | exact Store.get_remove_of_get_none _ _ _ (Store.get_remove_self _ _)
      | exact Store.get_remove_of_get_none _ _ _
          (Store.get_remove_of_get_none _ _ _ (Store.get_remove_self _ _))

/-- C3: with a blank (empty or whitespace-only) input message and no
selected file, `sendMessage` changes nothing — the state (messages,
input field, loading flag, everything) is returned as is — and issues
no network call. -/
theorem C3_blank_send_is_noop (st : Chat.ChatState) (u : Chat.UploadOutcome)
    (q : Chat.QueryOutcome)
    (h1 : jsTrim st.inputMessage = "") (h2 : st.selectedFile = none) :
    Chat.sendMessage st u q = (st, []) := by
  simp [Chat.sendMessage, h1, h2]

/-- C3 witness: a whitespace-only input with no file, against both
network outcomes. -/
theorem C3_blank_send_is_noop_witness :
    jsTrim (Chat.ChatState.mk [] "   " false false none 0).inputMessage = "" ∧
    (Chat.ChatState.mk [] "   " false false none 0).selectedFile = none ∧
    Chat.sendMessage (Chat.ChatState.mk [] "   " false false none 0) .ok .err =
      (Chat.ChatState.mk [] "   " false false none 0, []) :=
  ⟨by decide, rfl, C3_blank_send_is_noop _ .ok .err (by decide) rfl⟩

/-- C4: a file over the 10 MB limit makes `handleFileChange` raise the
error toast and leave the state (in particular the selected file)
untouched, so a subsequent `sendMessage` issues no upload call for it;
a file of at most 10 MB becomes the selected file. -/
theorem C4_file_size_limit (st : Chat.ChatState) (f : Chat.File) :
    (f.size > 10 * 1024 * 1024 →
      Chat.handleFileChange st (some f) =
        (st, [.error "File size should be less than 10MB"]) ∧
      (st.selectedFile = none → ∀ u q,
        Chat.Call.upload ∉ (Chat.sendMessage (Chat.handleFileChange st (some f)).1 u q).2)) ∧
    (f.size ≤ 10 * 1024 * 1024 →
      (Chat.handleFileChange st (some f)).1.selectedFile = some f) := by
  constructor
  · intro hbig
    have hfc : Chat.handleFileChange st (some f) =
        (st, [.error "File size should be less than 10MB"]) := by
      simp [Chat.handleFileChange, hbig]
    refine ⟨hfc, fun hnone u q => ?_⟩
    rw [hfc]
    exact Chat.upload_not_called st u q hnone
  · intro hsmall
    simp [Chat.handleFileChange, Nat.not_lt.mpr hsmall]

/-- C4 witness: a 10 MB + 1 byte file is rejected with the toast and a
10 MB file is selected. -/
theorem C4_file_size_limit_witness :
    (10485761 > 10 * 1024 * 1024 ∧
      Chat.handleFileChange (Chat.ChatState.mk [] "" false false none 0)
          (some ⟨"big.pdf", 10485761⟩) =
        (Chat.ChatState.mk [] "" false false none 0,
          [.error "File size should be less than 10MB"])) ∧
    (10485760 ≤ 10 * 1024 * 1024 ∧
      (Chat.handleFileChange (Chat.ChatState.mk [] "" false false none 0)
          (some ⟨"ok.pdf", 10485760⟩)).1.selectedFile = some ⟨"ok.pdf", 10485760⟩) :=
  ⟨⟨by decide, ((C4_file_size_limit _ _).1 (by decide)).1⟩,
   ⟨by decide, (C4_file_size_limit _ _).2 (by decide)⟩⟩

/-- C5: whenever the query phase of `sendMessage` runs and the chat
query fails, the caught failure ends the run normally with the fixed
apology message appended as the last message and the loading flag reset
to false (the query call was issued, and no error escapes: the
function's type is total). -/
theorem C5_query_failure_apology (st : Chat.ChatState) (u : Chat.UploadOutcome)
    (h1 : jsTrim st.inputMessage ≠ "") (h2 : st.selectedFile = none ∨ u = .ok) :
    (Chat.sendMessage st u .err).1.messages.getLast? = some Chat.apologyMessage ∧
    (Chat.sendMessage st u .err).1.isLoading = false ∧
    Chat.Call.query ∈ (Chat.sendMessage st u .err).2 := by
  rcases h2 with h2 | h2
  · refine ⟨?_, ?_, ?_⟩ <;> simp [Chat.sendMessage, h1, h2]
  · subst h2
    rcases hf : st.selectedFile with _ | f
    · refine ⟨?_, ?_, ?_⟩ <;> simp [Chat.sendMessage, h1, hf]
    · refine ⟨?_, ?_, ?_⟩ <;> simp [Chat.sendMessage, Chat.uploadFile, h1, hf]

/-- C5 witness: a nonempty message with no file and a failing query. -/
theorem C5_query_failure_apology_witness :
    (jsTrim (Chat.ChatState.mk [] "hi" false false none 0).inputMessage ≠ "" ∧
     (Chat.ChatState.mk [] "hi" false false none 0).selectedFile = none) ∧
    (Chat.sendMessage (Chat.ChatState.mk [] "hi" false false none 0) .err .err).1.messages.getLast?
        = some Chat.apologyMessage ∧
    (Chat.sendMessage (Chat.ChatState.mk [] "hi" false false none 0) .err .err).1.isLoading
        = false ∧
    Chat.Call.query ∈ (Chat.sendMessage (Chat.ChatState.mk [] "hi" false false none 0) .err .err).2 :=
  ⟨⟨by decide, rfl⟩, C5_query_failure_apology _ .err (by decide) (Or.inl rfl)⟩

/-- C6: the client timeout from `api.ts` is 60000 ms exactly when
`NODE_ENV` is `production` and 30000 ms otherwise, and a response that
would only arrive once the timeout has elapsed is aborted: the request
promise rejects. -/
theorem C6_timeout_value_and_abort :
    API_TIMEOUT "production" = 60000 ∧
    (∀ env, env ≠ "production" → API_TIMEOUT env = 30000) ∧
    (∀ (store : Store) (rest : List FetchResult) (t d status : Nat) (b : JsonBody),
      t ≤ d →
      (ApiService.request ⟨store, .resp d status b :: rest, t⟩).1 = .error .aborted) := by
  refine ⟨rfl, fun env h => ?_, fun store rest t d status b hd => ?_⟩
  · simp [API_TIMEOUT, ENV, API_CONFIG, h]
  · simp [ApiService.request, hd]

/-- C6 witness: the development timeout, and a response arriving exactly
at the 30 s timeout being aborted. -/
theorem C6_timeout_value_and_abort_witness :
    ("development" ≠ "production" ∧ API_TIMEOUT "development" = 30000) ∧
    (30000 ≤ 30000 ∧
      (ApiService.request ⟨[], [.resp 30000 200 ⟨"a", "r"⟩], 30000⟩).1 = .error .aborted) :=
  ⟨⟨by decide, C6_timeout_value_and_abort.2.1 "development" (by decide)⟩,
   ⟨by decide, C6_timeout_value_and_abort.2.2 [] [] 30000 30000 200 ⟨"a", "r"⟩ (by decide)⟩⟩

/-- C1 counterexample: with a stored refresh token and a server that
answers 401, then a successful refresh, then 401 again, then a second
successful refresh, then 200, `request` resolves successfully after TWO
refresh-and-retry rounds — the claimed surfacing of the failure after
one refresh and one failed retried attempt does not happen.  The final
access token is the one from the second refresh response, showing the
second refresh really ran. -/
theorem C1_single_retry_counterexample :
    (ApiService.request ⟨[("vaidya_refresh_token", "r0")],
      [.resp 0 401 ⟨"x", "x"⟩, .resp 0 200 ⟨"a1", "r1"⟩,
       .resp 0 401 ⟨"x", "x"⟩, .resp 0 200 ⟨"a2", "r2"⟩,
       .resp 0 200 ⟨"ans", "ansr"⟩], 30000⟩).1 = .ok ⟨"ans", "ansr"⟩ ∧
    (ApiService.request ⟨[("vaidya_refresh_token", "r0")],
      [.resp 0 401 ⟨"x", "x"⟩, .resp 0 200 ⟨"a1", "r1"⟩,
       .resp 0 401 ⟨"x", "x"⟩, .resp 0 200 ⟨"a2", "r2"⟩,
       .resp 0 200 ⟨"ans", "ansr"⟩], 30000⟩).2.store.get "vaidya_access_token" =
      some "a2" := by
  constructor <;>
    simp [ApiService.request, ApiService.refreshToken, Store.get, Store.set,
      Store.remove, respOk, STORAGE_KEYS]

/-- C1 (amended): a 401 response triggers a token refresh and a retry
of the request, and this recurs on every further 401 with no retry cap
(first conjunct: after a 401 and a successful refresh, `request`
continues as a fresh attempt with the refreshed tokens); the failure
that surfaces is the refresh's own failure — no stored refresh token
(second conjunct) or a non-OK refresh response (third conjunct) — or
the first non-401 error of a retried attempt. -/
theorem C1_retry_recurs_unbounded :
    (∀ (store : Store) (t d1 d2 : Nat) (b tk : JsonBody) (rest : List FetchResult)
      (r : String), store.get STORAGE_KEYS.REFRESH_TOKEN = some r → d1 < t →
      ApiService.request ⟨store, .resp d1 401 b :: .resp d2 200 tk :: rest, t⟩ =
        ApiService.request ⟨(store.set STORAGE_KEYS.ACCESS_TOKEN tk.access_token).set
            STORAGE_KEYS.REFRESH_TOKEN tk.refresh_token, rest, t⟩) ∧
    (∀ (store : Store) (t d1 : Nat) (b : JsonBody) (rest : List FetchResult),
      store.get STORAGE_KEYS.REFRESH_TOKEN = none → d1 < t →
      ApiService.request ⟨store, .resp d1 401 b :: rest, t⟩ =
        (.error .noRefreshToken, ⟨store, rest, t⟩)) ∧
    (∀ (store : Store) (t d1 d2 st2 : Nat) (b tk : JsonBody) (rest : List FetchResult)
      (r : String), store.get STORAGE_KEYS.REFRESH_TOKEN = some r → d1 < t →
      respOk st2 = false →
      ApiService.request ⟨store, .resp d1 401 b :: .resp d2 st2 tk :: rest, t⟩ =
        (.error .refreshFailed,
          ⟨(store.remove STORAGE_KEYS.ACCESS_TOKEN).remove STORAGE_KEYS.REFRESH_TOKEN,
            rest, t⟩)) := by
  refine ⟨fun store t d1 d2 b tk rest r htok hd => ?_,
    fun store t d1 b rest htok hd => ?_,
    fun store t d1 d2 st2 b tk rest r htok hd hok => ?_⟩
  · have h1 : ¬ t ≤ d1 := Nat.not_le.mpr hd
    simp [ApiService.request, ApiService.refreshToken, htok, respOk, h1]
    split
    · rename_i a s2 heq
      rw [htok] at heq
      cases heq
      rfl
    · rename_i e s2 heq
      rw [htok] at heq
      simp at heq
  · have h1 : ¬ t ≤ d1 := Nat.not_le.mpr hd
    simp [ApiService.request, ApiService.refreshToken, htok, respOk, h1]
    split
    · rename_i a s2 heq
      rw [htok] at heq
      simp at heq
    · rename_i e s2 heq
      rw [htok] at heq
      cases heq
      rfl
  · have h1 : ¬ t ≤ d1 := Nat.not_le.mpr hd
    simp only [respOk] at hok
    simp [ApiService.request, ApiService.refreshToken, htok, respOk, h1]
    split
    · rename_i a s2 heq
      rw [htok] at heq
      rw [hok] at heq
      simp at heq
    · rename_i e s2 heq
      rw [htok] at heq
      rw [hok] at heq
      simp only [Bool.false_eq_true, if_false] at heq
      cases heq
      rfl

/-- C1 witness: one concrete 401-refresh round of the first conjunct of
the amended theorem. -/
theorem C1_retry_recurs_unbounded_witness :
    Store.get [("vaidya_refresh_token", "r0")] STORAGE_KEYS.REFRESH_TOKEN = some "r0" ∧
    (0 : Nat) < 30000 ∧
    ApiService.request ⟨[("vaidya_refresh_token", "r0")],
        [.resp 0 401 ⟨"x", "x"⟩, .resp 0 200 ⟨"a1", "r1"⟩], 30000⟩ =
      ApiService.request ⟨Store.set
          (Store.set [("vaidya_refresh_token", "r0")] STORAGE_KEYS.ACCESS_TOKEN "a1")
          STORAGE_KEYS.REFRESH_TOKEN "r1", [], 30000⟩ :=
  ⟨by decide, by decide,
    C1_retry_recurs_unbounded.1 [("vaidya_refresh_token", "r0")] 30000 0 0
      ⟨"x", "x"⟩ ⟨"a1", "r1"⟩ [] "r0" (by decide) (by decide)⟩

/-- C7: in the axios-based variant the claim fails against the code as
written: `refreshToken` stores the new access token under
`vaidya_access_token` (via `APP_CONFIG.STORAGE_KEYS`), but that
variant's `getAuthHeaders` reads the bare key `access_token`, so after
a successful refresh no Authorization header is produced; the
fetch-based service, by contrast, reads back exactly what it stored.
The concrete run evaluates both variants after the same successful
refresh. -/
theorem C7_axios_storage_key_mismatch :
    (ApiServiceAxios.refreshToken
        ⟨[("vaidya_refresh_token", "r0")], [.resp 0 200 ⟨"newA", "newR"⟩], 30000⟩).2.store.get
      "vaidya_access_token" = some "newA" ∧
    ApiServiceAxios.getAuthHeaders
      (ApiServiceAxios.refreshToken
        ⟨[("vaidya_refresh_token", "r0")], [.resp 0 200 ⟨"newA", "newR"⟩], 30000⟩).2.store = [] ∧
    ApiService.getAuthHeaders
      (ApiService.refreshToken
        ⟨[("vaidya_refresh_token", "r0")], [.resp 0 200 ⟨"newA", "newR"⟩], 30000⟩).2.store =
      [("Authorization", "Bearer newA")] := by
  refine ⟨?_, ?_, ?_⟩ <;> decide

/-- C8: the fetch-based `refreshToken` (i) with no stored refresh token
throws, consuming no network response and leaving storage untouched;
(ii) on a network failure it throws without touching the token keys;
(iii) on a non-OK response it removes both token keys and throws;
(iv) only on an OK response does it overwrite both token keys, with the
new tokens from the response body. -/
theorem C8_refreshToken_token_handling (s : St) :
    (s.store.get STORAGE_KEYS.REFRESH_TOKEN = none →
      ApiService.refreshToken s = (.error .noRefreshToken, s)) ∧
    (∀ (r : String) (rest : List FetchResult),
      s.store.get STORAGE_KEYS.REFRESH_TOKEN = some r → s.trace = .netError :: rest →
      ApiService.refreshToken s = (.error .netError, ⟨s.store, rest, s.timeoutMs⟩)) ∧
    (∀ (r : String) (d status : Nat) (b : JsonBody) (rest : List FetchResult),
      s.store.get STORAGE_KEYS.REFRESH_TOKEN = some r →
      s.trace = .resp d status b :: rest → respOk status = false →
      ApiService.refreshToken s =
        (.error .refreshFailed,
          ⟨(s.store.remove STORAGE_KEYS.ACCESS_TOKEN).remove STORAGE_KEYS.REFRESH_TOKEN,
            rest, s.timeoutMs⟩)) ∧
    (∀ (r : String) (d status : Nat) (b : JsonBody) (rest : List FetchResult),
      s.store.get STORAGE_KEYS.REFRESH_TOKEN = some r →
      s.trace = .resp d status b :: rest → respOk status = true →
      ApiService.refreshToken s =
        (.ok b, ⟨(s.store.set STORAGE_KEYS.ACCESS_TOKEN b.access_token).set
            STORAGE_KEYS.REFRESH_TOKEN b.refresh_token, rest, s.timeoutMs⟩)) := by
  obtain ⟨store, trace, t⟩ := s
  refine ⟨fun h => ?_, fun r rest h ht => ?_, fun r d status b rest h ht hok => ?_,
    fun r d status b rest h ht hok => ?_⟩ <;>
    simp_all [ApiService.refreshToken]

/-- C8 witness: the no-token branch and the successful-refresh branch
at concrete inputs. -/
theorem C8_refreshToken_token_handling_witness :
    ((⟨[], [], 30000⟩ : St).store.get STORAGE_KEYS.REFRESH_TOKEN = none ∧
      ApiService.refreshToken ⟨[], [], 30000⟩ = (.error .noRefreshToken, ⟨[], [], 30000⟩)) ∧
    ((⟨[("vaidya_refresh_token", "r0")], [.resp 0 200 ⟨"a1", "r1"⟩], 30000⟩ : St).store.get
        STORAGE_KEYS.REFRESH_TOKEN = some "r0" ∧
      respOk 200 = true ∧
      ApiService.refreshToken ⟨[("vaidya_refresh_token", "r0")],
          [.resp 0 200 ⟨"a1", "r1"⟩], 30000⟩ =
        (.ok ⟨"a1", "r1"⟩,
          ⟨Store.set
              (Store.set [("vaidya_refresh_token", "r0")] STORAGE_KEYS.ACCESS_TOKEN "a1")
              STORAGE_KEYS.REFRESH_TOKEN "r1", [], 30000⟩)) :=
  ⟨⟨by decide, (C8_refreshToken_token_handling ⟨[], [], 30000⟩).1 (by decide)⟩,
   ⟨by decide, by decide,
    (C8_refreshToken_token_handling _).2.2.2 "r0" 0 200 ⟨"a1", "r1"⟩ []
      (by decide) rfl (by decide)⟩⟩

/-- C9: `handleAnalyze` passes `onAnalyze` exactly the entered symptoms
with blank and whitespace-only entries filtered out, and when that
filtered list is empty it does not call `onAnalyze` and sets the error
message instead. -/
theorem C9_analyze_filters_blank (symptoms : List String) (analyzeOk : Bool) :
    ((symptoms.filter fun s => jsTrim s ≠ "") ≠ [] →
      (SymptomChecker.handleAnalyze symptoms analyzeOk).2 =
        some (symptoms.filter fun s => jsTrim s ≠ "")) ∧
    ((symptoms.filter fun s => jsTrim s ≠ "") = [] →
      (SymptomChecker.handleAnalyze symptoms analyzeOk).2 = none ∧
      (SymptomChecker.handleAnalyze symptoms analyzeOk).1 =
        "Please enter at least one symptom") := by
  constructor
  · intro h
    have hlen : ¬ (symptoms.filter fun s => jsTrim s ≠ "").length = 0 := by
      rw [List.length_eq_zero]; exact h
    simp only [SymptomChecker.handleAnalyze]
    rw [if_neg hlen]
  · intro h
    have hlen : (symptoms.filter fun s => jsTrim s ≠ "").length = 0 := by
      rw [List.length_eq_zero]; exact h
    simp only [SymptomChecker.handleAnalyze]
    rw [if_pos hlen]
    exact ⟨rfl, rfl⟩

/-- C9 witness: a list with one real symptom and one blank entry, and a
list of only blank entries. -/
theorem C9_analyze_filters_blank_witness :
    ((["fever", " "].filter fun s => jsTrim s ≠ "") ≠ [] ∧
      (SymptomChecker.handleAnalyze ["fever", " "] true).2 =
        some (["fever", " "].filter fun s => jsTrim s ≠ "")) ∧
    ((["", "  "].filter fun s => jsTrim s ≠ "") = [] ∧
      (SymptomChecker.handleAnalyze ["", "  "] true).2 = none ∧
      (SymptomChecker.handleAnalyze ["", "  "] true).1 =
        "Please enter at least one symptom") :=
  ⟨⟨by decide, (C9_analyze_filters_blank ["fever", " "] true).1 (by decide)⟩,
   ⟨by decide, (C9_analyze_filters_blank ["", "  "] true).2 (by decide)⟩⟩

/-- C10: the symptom field list starts with one entry, `addSymptom`
appends one, `updateSymptom` keeps the length, `removeSymptom` is the
identity unless more than one field exists, and consequently every
reachable symptom list is non-empty. -/
theorem C10_symptom_list_never_empty :
    SymptomChecker.initialSymptoms.length = 1 ∧
    (∀ l, (SymptomChecker.addSymptom l).length = l.length + 1) ∧
    (∀ l (i : Nat) (v : String), (SymptomChecker.updateSymptom l i v).length = l.length) ∧
    (∀ l (i : Nat), l.length ≤ 1 → SymptomChecker.removeSymptom l i = l) ∧
    (∀ l, SymptomChecker.Reachable l → 1 ≤ l.length) := by
  refine ⟨rfl, fun l => by simp [SymptomChecker.addSymptom],
    fun l i v => by simp [SymptomChecker.updateSymptom],
    fun l i h => ?_, fun l hr => ?_⟩
  · unfold SymptomChecker.removeSymptom
    rw [if_neg (by omega)]
  · induction hr with
    | init => decide
    | add h ih => simp [SymptomChecker.addSymptom]
    | update i v h ih => simpa [SymptomChecker.updateSymptom] using ih
    | remove i h ih => exact SymptomChecker.removeSymptom_length_pos _ _ ih

/-- C10 witness: the small-list identity branch of `removeSymptom` and
the invariant at a concretely reachable state. -/
theorem C10_symptom_list_never_empty_witness :
    (([""] : List String).length ≤ 1 ∧ SymptomChecker.removeSymptom [""] 0 = [""]) ∧
    (SymptomChecker.Reachable
        (SymptomChecker.removeSymptom (SymptomChecker.addSymptom
          SymptomChecker.initialSymptoms) 0) ∧
      1 ≤ (SymptomChecker.removeSymptom (SymptomChecker.addSymptom
          SymptomChecker.initialSymptoms) 0).length) :=
  ⟨⟨by decide, C10_symptom_list_never_empty.2.2.2.1 [""] 0 (by decide)⟩,
   ⟨SymptomChecker.Reachable.remove 0 (SymptomChecker.Reachable.add
      SymptomChecker.Reachable.init),
    C10_symptom_list_never_empty.2.2.2.2 _
      (SymptomChecker.Reachable.remove 0 (SymptomChecker.Reachable.add
        SymptomChecker.Reachable.init))⟩⟩
